import Mathlib

/-!
Verification of the unary join-pattern construction layer of the
rusty-junctions library (src/src/patterns/unary.rs).

The file shallowly embeds the three unary partial patterns
(`SendPartialPattern`, `RecvPartialPattern`, `BidirPartialPattern`), their
growth operations (`and`, `and_recv`, `and_bidir`), their completion
(`then_do`) and the three full join patterns (`SendJoinPattern`,
`RecvJoinPattern`, `BidirJoinPattern`).  Effects are made explicit: a
growth or completion call returns the list of packets it delivered to the
Junction's event stream together with either its value or the construction
fault (Rust panic) it raised.  Collaborator types that live outside the
given source file (identifiers, channels, the packet enum, the function
transforms, the mpsc sender) are modelled from the specification and are
marked as such in their doc comments.
-/

set_option autoImplicit false

universe u

namespace RustyJunctions

/-- Modelled from the spec: `ids::JunctionId` (module `types::ids` is not
under src/), an opaque identifier scoping a set of channels and patterns. -/
structure JunctionId where
  id : Nat
deriving DecidableEq, Repr

/-- Modelled from the spec: `ids::ChannelId` (module `types::ids` is not
under src/), an opaque identifier unique within a Junction. -/
structure ChannelId where
  id : Nat
deriving DecidableEq, Repr

/-- Modelled from the spec: `types::Message` (not under src/), the
type-erased payload envelope moved into the engine.  The erased payload is
a value of an arbitrary type. -/
structure Message : Type 1 where
  payload : Sigma fun (α : Type) => α

/-- Modelled from the spec: `functions::unary::FnBox` (not under src/), the
type-erased reaction closure stored in a unary join pattern.  We represent
the erased closure by its provenance: which function transform built it and
from which typed reaction, so the capability shape of the wrapped reaction
is visible. -/
inductive FnBox : Type 1 where
  | sendClosure : {T : Type} → (T → Unit) → FnBox
  | recvClosure : {R : Type} → (Unit → R) → FnBox
  | bidirClosure : {T R : Type} → (T → R) → FnBox

namespace function_transforms

namespace unary

/-- Modelled from the spec: `function_transforms::unary::transform_send`
(not under src/) erases a send reaction `Fn(T) -> ()` into an `FnBox`. -/
def transform_send {T : Type} (f : T → Unit) : FnBox :=
  FnBox.sendClosure f

/-- Modelled from the spec: `function_transforms::unary::transform_recv`
(not under src/) erases a receive reaction `Fn() -> R` into an `FnBox`. -/
def transform_recv {R : Type} (f : Unit → R) : FnBox :=
  FnBox.recvClosure f

/-- Modelled from the spec: `function_transforms::unary::transform_bidir`
(not under src/) erases a bidirectional reaction `Fn(T) -> R` into an
`FnBox`. -/
def transform_bidir {T R : Type} (f : T → R) : FnBox :=
  FnBox.bidirClosure f

end unary

end function_transforms

/-- Shallow model of `thread::spawn(move || (*f_clone)(arg))`: the record of
a newly spawned thread of execution, holding the cloned closure and the
argument it will be applied to.  The engine itself never evaluates the
closure. -/
structure SpawnedThread : Type 1 where
  f : FnBox
  arg : Message

/-- `SendChannel` full Join Pattern (src/src/patterns/unary.rs, lines
166-169). -/
structure SendJoinPattern : Type 1 where
  channel_id : ChannelId
  f : FnBox

/-- `SendJoinPattern::new` (unary.rs, lines 172-174). -/
def SendJoinPattern.new (channel_id : ChannelId) (f : FnBox) : SendJoinPattern :=
  { channel_id := channel_id, f := f }

/-- `SendJoinPattern::channels` (unary.rs, lines 176-178). -/
def SendJoinPattern.channels (self : SendJoinPattern) : List ChannelId :=
  [self.channel_id]

/-- `SendJoinPattern::fire` (unary.rs, lines 186-192): clone the stored
closure and spawn a thread applying it to `arg`. -/
def SendJoinPattern.fire (self : SendJoinPattern) (arg : Message) : SpawnedThread :=
  { f := self.f, arg := arg }

/-- `RecvChannel` full Join Pattern (unary.rs, lines 250-253). -/
structure RecvJoinPattern : Type 1 where
  channel_id : ChannelId
  f : FnBox

/-- `RecvJoinPattern::new` (unary.rs, lines 256-258). -/
def RecvJoinPattern.new (channel_id : ChannelId) (f : FnBox) : RecvJoinPattern :=
  { channel_id := channel_id, f := f }

/-- `RecvJoinPattern::channels` (unary.rs, lines 260-262). -/
def RecvJoinPattern.channels (self : RecvJoinPattern) : List ChannelId :=
  [self.channel_id]

/-- `RecvJoinPattern::fire` (unary.rs, lines 270-276). -/
def RecvJoinPattern.fire (self : RecvJoinPattern) (return_sender : Message) : SpawnedThread :=
  { f := self.f, arg := return_sender }

/-- `BidirChannel` full Join Pattern (unary.rs, lines 331-334). -/
structure BidirJoinPattern : Type 1 where
  channel_id : ChannelId
  f : FnBox

/-- `BidirJoinPattern::new` (unary.rs, lines 337-339). -/
def BidirJoinPattern.new (channel_id : ChannelId) (f : FnBox) : BidirJoinPattern :=
  { channel_id := channel_id, f := f }

/-- `BidirJoinPattern::channels` (unary.rs, lines 341-343). -/
def BidirJoinPattern.channels (self : BidirJoinPattern) : List ChannelId :=
  [self.channel_id]

/-- `BidirJoinPattern::fire` (unary.rs, lines 351-357). -/
def BidirJoinPattern.fire (self : BidirJoinPattern) (arg_and_sender : Message) : SpawnedThread :=
  { f := self.f, arg := arg_and_sender }

/-- `types::JoinPattern` (not under src/): the enum whose unary variants
`UnarySend`, `UnaryRecv`, `UnaryBidir` are constructed in unary.rs.  Only
those variants are modelled; further arities are irrelevant here. -/
inductive JoinPattern : Type 1 where
  | UnarySend : SendJoinPattern → JoinPattern
  | UnaryRecv : RecvJoinPattern → JoinPattern
  | UnaryBidir : BidirJoinPattern → JoinPattern

/-- `types::Packet` (not under src/): the inbound event envelope.  Only the
variant constructed in unary.rs, `AddJoinPatternRequest`, is modelled. -/
inductive Packet : Type 1 where
  | AddJoinPatternRequest : (join_pattern : JoinPattern) → Packet

/-- Modelled from the spec: the `std::sync::mpsc::Sender<Packet>` handle to
the Junction's event stream, an external collaborator; all that matters to
this layer is whether the receiving Junction is still reachable. -/
structure Sender where
  reachable : Bool
deriving DecidableEq, Repr

/-- A fatal construction fault (a Rust panic) raised by the builder layer. -/
inductive Fault where
  | junctionMismatch : Fault
  | junctionUnreachable : Fault
deriving DecidableEq, Repr

/-- The explicit effect of one builder call: the packets it delivered to
the Junction's event stream, in order, and either its return value or the
construction fault (panic) that aborted it. -/
structure EffResult (α : Type u) : Type (max u 1) where
  sent : List Packet
  result : Except Fault α

/-- Modelled from the spec: `channels::StrippedSendChannel<T>` (not under
src/), the type-erased form of a send channel keeping its identifiers and
capability tag. -/
structure StrippedSendChannel (T : Type) where
  junction_id : JunctionId
  id : ChannelId
deriving DecidableEq, Repr

/-- Modelled from the spec: `channels::StrippedRecvChannel<R>` (not under
src/). -/
structure StrippedRecvChannel (R : Type) where
  junction_id : JunctionId
  id : ChannelId
deriving DecidableEq, Repr

/-- Modelled from the spec: `channels::StrippedBidirChannel<T, R>` (not
under src/). -/
structure StrippedBidirChannel (T R : Type) where
  junction_id : JunctionId
  id : ChannelId
deriving DecidableEq, Repr

/-- Modelled from the spec: `channels::SendChannel<T>` (not under src/), a
typed send endpoint belonging to exactly one Junction. -/
structure SendChannel (T : Type) where
  junction_id : JunctionId
  id : ChannelId
deriving DecidableEq, Repr

/-- Modelled from the spec: `SendChannel::strip` erases the payload type,
keeping capability tag and identifiers. -/
def SendChannel.strip {T : Type} (self : SendChannel T) : StrippedSendChannel T :=
  { junction_id := self.junction_id, id := self.id }

/-- Modelled from the spec: `channels::RecvChannel<R>` (not under src/). -/
structure RecvChannel (R : Type) where
  junction_id : JunctionId
  id : ChannelId
deriving DecidableEq, Repr

/-- Modelled from the spec: `RecvChannel::strip`. -/
def RecvChannel.strip {R : Type} (self : RecvChannel R) : StrippedRecvChannel R :=
  { junction_id := self.junction_id, id := self.id }

/-- Modelled from the spec: `channels::BidirChannel<T, R>` (not under
src/). -/
structure BidirChannel (T R : Type) where
  junction_id : JunctionId
  id : ChannelId
deriving DecidableEq, Repr

/-- Modelled from the spec: `BidirChannel::strip`. -/
def BidirChannel.strip {T R : Type} (self : BidirChannel T R) : StrippedBidirChannel T R :=
  { junction_id := self.junction_id, id := self.id }

namespace binary

/-- `patterns::binary::SendPartialPattern<T, U>` (not under src/), modelled
from the spec and its constructor call in unary.rs lines 56-61: it receives
the junction id, the two stripped send channels in order, and the sender. -/
structure SendPartialPattern (T U : Type) where
  junction_id : JunctionId
  first_send_channel : StrippedSendChannel T
  second_send_channel : StrippedSendChannel U
  sender : Sender
deriving DecidableEq, Repr

/-- `binary::SendPartialPattern::new`, as called from unary.rs. -/
def SendPartialPattern.new {T U : Type} (junction_id : JunctionId)
    (first_send_channel : StrippedSendChannel T)
    (second_send_channel : StrippedSendChannel U)
    (sender : Sender) : SendPartialPattern T U :=
  { junction_id := junction_id, first_send_channel := first_send_channel,
    second_send_channel := second_send_channel, sender := sender }

/-- `patterns::binary::RecvPartialPattern<T, R>` (not under src/), modelled
from the spec and its constructor call in unary.rs lines 90-94: it receives
only the stripped send channel, the stripped recv channel and the sender —
no junction id. -/
structure RecvPartialPattern (T R : Type) where
  send_channel : StrippedSendChannel T
  recv_channel : StrippedRecvChannel R
  sender : Sender
deriving DecidableEq, Repr

/-- `binary::RecvPartialPattern::new`, as called from unary.rs. -/
def RecvPartialPattern.new {T R : Type} (send_channel : StrippedSendChannel T)
    (recv_channel : StrippedRecvChannel R)
    (sender : Sender) : RecvPartialPattern T R :=
  { send_channel := send_channel, recv_channel := recv_channel, sender := sender }

/-- `patterns::binary::BidirPartialPattern<T, U, R>` (not under src/),
modelled from the spec and its constructor call in unary.rs lines 124-128:
it receives only the stripped send channel, the stripped bidir channel and
the sender — no junction id. -/
structure BidirPartialPattern (T U R : Type) where
  send_channel : StrippedSendChannel T
  bidir_channel : StrippedBidirChannel U R
  sender : Sender
deriving DecidableEq, Repr

/-- `binary::BidirPartialPattern::new`, as called from unary.rs. -/
def BidirPartialPattern.new {T U R : Type} (send_channel : StrippedSendChannel T)
    (bidir_channel : StrippedBidirChannel U R)
    (sender : Sender) : BidirPartialPattern T U R :=
  { send_channel := send_channel, bidir_channel := bidir_channel, sender := sender }

end binary

namespace unary

/-- `SendChannel` partial Join Pattern (unary.rs, lines 19-23). -/
structure SendPartialPattern (T : Type) where
  junction_id : JunctionId
  send_channel : StrippedSendChannel T
  sender : Sender
deriving DecidableEq, Repr

/-- `SendPartialPattern::new` (unary.rs, lines 29-39). -/
def SendPartialPattern.new {T : Type} (junction_id : JunctionId)
    (send_channel : StrippedSendChannel T) (sender : Sender) : SendPartialPattern T :=
  { junction_id := junction_id, send_channel := send_channel, sender := sender }

/-- `SendPartialPattern::and` (unary.rs, lines 51-70): if the supplied
`SendChannel` carries the pattern's junction id, return the binary send
partial pattern; otherwise panic.  No packet is sent either way. -/
def SendPartialPattern.and {T U : Type} (self : SendPartialPattern T)
    (send_channel : SendChannel U) : EffResult (binary.SendPartialPattern T U) :=
  if send_channel.junction_id = self.junction_id then
    { sent := [],
      result := Except.ok (binary.SendPartialPattern.new self.junction_id
        self.send_channel send_channel.strip self.sender) }
  else
    { sent := [], result := Except.error Fault.junctionMismatch }

/-- `SendPartialPattern::and_recv` (unary.rs, lines 82-103). -/
def SendPartialPattern.and_recv {T R : Type} (self : SendPartialPattern T)
    (recv_channel : RecvChannel R) : EffResult (binary.RecvPartialPattern T R) :=
  if recv_channel.junction_id = self.junction_id then
    { sent := [],
      result := Except.ok (binary.RecvPartialPattern.new self.send_channel
        recv_channel.strip self.sender) }
  else
    { sent := [], result := Except.error Fault.junctionMismatch }

/-- `SendPartialPattern::and_bidir` (unary.rs, lines 115-137). -/
def SendPartialPattern.and_bidir {T U R : Type} (self : SendPartialPattern T)
    (bidir_channel : BidirChannel U R) : EffResult (binary.BidirPartialPattern T U R) :=
  if bidir_channel.junction_id = self.junction_id then
    { sent := [],
      result := Except.ok (binary.BidirPartialPattern.new self.send_channel
        bidir_channel.strip self.sender) }
  else
    { sent := [], result := Except.error Fault.junctionMismatch }

/-- The `let join_pattern = ...` binding of `SendPartialPattern::then_do`
(unary.rs, lines 154-157): the full join pattern packaged from the
accumulated channel id and the supplied reaction. -/
def SendPartialPattern.builtJoinPattern {T : Type} (self : SendPartialPattern T)
    (f : T → Unit) : JoinPattern :=
  JoinPattern.UnarySend (SendJoinPattern.new self.send_channel.id
    (function_transforms.unary.transform_send f))

/-- `SendPartialPattern::then_do` (unary.rs, lines 150-162): build the join
pattern, send one `AddJoinPatternRequest` on the Junction's event stream and
unwrap, panicking when the stream is unreachable. -/
def SendPartialPattern.then_do {T : Type} (self : SendPartialPattern T)
    (f : T → Unit) : EffResult Unit :=
  let join_pattern := self.builtJoinPattern f
  if self.sender.reachable then
    { sent := [Packet.AddJoinPatternRequest join_pattern], result := Except.ok () }
  else
    { sent := [], result := Except.error Fault.junctionUnreachable }

/-- `RecvChannel` partial Join Pattern (unary.rs, lines 200-203). -/
structure RecvPartialPattern (R : Type) where
  recv_channel : StrippedRecvChannel R
  sender : Sender
deriving DecidableEq, Repr

/-- `RecvPartialPattern::new` (unary.rs, lines 209-217). -/
def RecvPartialPattern.new {R : Type} (recv_channel : StrippedRecvChannel R)
    (sender : Sender) : RecvPartialPattern R :=
  { recv_channel := recv_channel, sender := sender }

/-- The `let join_pattern = ...` binding of `RecvPartialPattern::then_do`
(unary.rs, lines 234-237). -/
def RecvPartialPattern.builtJoinPattern {R : Type} (self : RecvPartialPattern R)
    (f : Unit → R) : JoinPattern :=
  JoinPattern.UnaryRecv (RecvJoinPattern.new self.recv_channel.id
    (function_transforms.unary.transform_recv f))

/-- `RecvPartialPattern::then_do` (unary.rs, lines 230-242). -/
def RecvPartialPattern.then_do {R : Type} (self : RecvPartialPattern R)
    (f : Unit → R) : EffResult Unit :=
  let join_pattern := self.builtJoinPattern f
  if self.sender.reachable then
    { sent := [Packet.AddJoinPatternRequest join_pattern], result := Except.ok () }
  else
    { sent := [], result := Except.error Fault.junctionUnreachable }

/-- Bidirectional channel partial Join Pattern (unary.rs, lines 284-287). -/
structure BidirPartialPattern (T R : Type) where
  bidir_channel : StrippedBidirChannel T R
  sender : Sender
deriving DecidableEq, Repr

/-- `BidirPartialPattern::new` (unary.rs, lines 294-302). -/
def BidirPartialPattern.new {T R : Type} (bidir_channel : StrippedBidirChannel T R)
    (sender : Sender) : BidirPartialPattern T R :=
  { bidir_channel := bidir_channel, sender := sender }

/-- The `let join_pattern = ...` binding of `BidirPartialPattern::then_do`
(unary.rs, lines 319-322). -/
def BidirPartialPattern.builtJoinPattern {T R : Type} (self : BidirPartialPattern T R)
    (f : T → R) : JoinPattern :=
  JoinPattern.UnaryBidir (BidirJoinPattern.new self.bidir_channel.id
    (function_transforms.unary.transform_bidir f))

/-- `BidirPartialPattern::then_do` (unary.rs, lines 315-327). -/
def BidirPartialPattern.then_do {T R : Type} (self : BidirPartialPattern T R)
    (f : T → R) : EffResult Unit :=
  let join_pattern := self.builtJoinPattern f
  if self.sender.reachable then
    { sent := [Packet.AddJoinPatternRequest join_pattern], result := Except.ok () }
  else
    { sent := [], result := Except.error Fault.junctionUnreachable }

end unary

/-- Repeated firing of one `SendJoinPattern`: `fire` takes the pattern by
shared reference, so each call leaves the pattern for the next call as it
was; the pair threads the pattern through and accumulates the spawned
threads. -/
def SendJoinPattern.fireAll (self : SendJoinPattern) (msgs : List Message) :
    SendJoinPattern × List SpawnedThread :=
  msgs.foldl (fun acc m => (acc.1, acc.2 ++ [acc.1.fire m])) (self, [])

lemma SendJoinPattern.fireAll_foldl (msgs : List Message) (p : SendJoinPattern)
    (acc : List SpawnedThread) :
    msgs.foldl (fun a m => (a.1, a.2 ++ [a.1.fire m])) (p, acc)
      = (p, acc ++ msgs.map fun m => p.fire m) := by
  induction msgs generalizing acc with
  | nil => simp
  | cons m ms ih => simp [List.foldl, ih]

lemma SendJoinPattern.fireAll_eq (p : SendJoinPattern) (msgs : List Message) :
    p.fireAll msgs = (p, msgs.map fun m => p.fire m) := by
  simpa using SendJoinPattern.fireAll_foldl msgs p []

/-- C1: every growth operation on a unary `SendPartialPattern` (`and`,
`and_recv`, `and_bidir`) panics with a junction-mismatch construction fault
when the supplied channel's `JunctionId` differs from the pattern's, and
when they are equal it returns the grown binary partial pattern without
fault. -/
theorem growth_checks_junction_id {T U R : Type}
    (p : unary.SendPartialPattern T)
    (sc : SendChannel U) (rc : RecvChannel R) (bc : BidirChannel U R) :
    (sc.junction_id ≠ p.junction_id →
      (p.and sc).result = Except.error Fault.junctionMismatch) ∧
    (sc.junction_id = p.junction_id →
      (p.and sc).result = Except.ok
        (binary.SendPartialPattern.new p.junction_id p.send_channel sc.strip p.sender)) ∧
    (rc.junction_id ≠ p.junction_id →
      (p.and_recv rc).result = Except.error Fault.junctionMismatch) ∧
    (rc.junction_id = p.junction_id →
      (p.and_recv rc).result = Except.ok
        (binary.RecvPartialPattern.new p.send_channel rc.strip p.sender)) ∧
    (bc.junction_id ≠ p.junction_id →
      (p.and_bidir bc).result = Except.error Fault.junctionMismatch) ∧
    (bc.junction_id = p.junction_id →
      (p.and_bidir bc).result = Except.ok
        (binary.BidirPartialPattern.new p.send_channel bc.strip p.sender)) := by
  refine ⟨fun h => ?_, fun h => ?_, fun h => ?_, fun h => ?_, fun h => ?_, fun h => ?_⟩ <;>
    simp [unary.SendPartialPattern.and, unary.SendPartialPattern.and_recv,
      unary.SendPartialPattern.and_bidir, h]

/-- Witness for C1 at concrete inputs: junction 0 versus junction 1,
channels of payload type `Nat`. -/
theorem growth_checks_junction_id_witness :
    (((unary.SendPartialPattern.new ⟨0⟩ ⟨⟨0⟩, ⟨0⟩⟩ ⟨true⟩ :
        unary.SendPartialPattern Nat).and (⟨⟨1⟩, ⟨1⟩⟩ : SendChannel Nat)).result
      = Except.error Fault.junctionMismatch) ∧
    (((unary.SendPartialPattern.new ⟨0⟩ ⟨⟨0⟩, ⟨0⟩⟩ ⟨true⟩ :
        unary.SendPartialPattern Nat).and (⟨⟨0⟩, ⟨1⟩⟩ : SendChannel Nat)).result
      = Except.ok (binary.SendPartialPattern.new ⟨0⟩ ⟨⟨0⟩, ⟨0⟩⟩ ⟨⟨0⟩, ⟨1⟩⟩ ⟨true⟩)) ∧
    (((unary.SendPartialPattern.new ⟨0⟩ ⟨⟨0⟩, ⟨0⟩⟩ ⟨true⟩ :
        unary.SendPartialPattern Nat).and_recv (⟨⟨1⟩, ⟨2⟩⟩ : RecvChannel Nat)).result
      = Except.error Fault.junctionMismatch) ∧
    (((unary.SendPartialPattern.new ⟨0⟩ ⟨⟨0⟩, ⟨0⟩⟩ ⟨true⟩ :
        unary.SendPartialPattern Nat).and_recv (⟨⟨0⟩, ⟨2⟩⟩ : RecvChannel Nat)).result
      = Except.ok (binary.RecvPartialPattern.new ⟨⟨0⟩, ⟨0⟩⟩ ⟨⟨0⟩, ⟨2⟩⟩ ⟨true⟩)) ∧
    (((unary.SendPartialPattern.new ⟨0⟩ ⟨⟨0⟩, ⟨0⟩⟩ ⟨true⟩ :
        unary.SendPartialPattern Nat).and_bidir (⟨⟨1⟩, ⟨3⟩⟩ : BidirChannel Nat Nat)).result
      = Except.error Fault.junctionMismatch) ∧
    (((unary.SendPartialPattern.new ⟨0⟩ ⟨⟨0⟩, ⟨0⟩⟩ ⟨true⟩ :
        unary.SendPartialPattern Nat).and_bidir (⟨⟨0⟩, ⟨3⟩⟩ : BidirChannel Nat Nat)).result
      = Except.ok (binary.BidirPartialPattern.new ⟨⟨0⟩, ⟨0⟩⟩ ⟨⟨0⟩, ⟨3⟩⟩ ⟨true⟩)) := by
  have bad := growth_checks_junction_id
    (unary.SendPartialPattern.new ⟨0⟩ ⟨⟨0⟩, ⟨0⟩⟩ ⟨true⟩ : unary.SendPartialPattern Nat)
    (⟨⟨1⟩, ⟨1⟩⟩ : SendChannel Nat) (⟨⟨1⟩, ⟨2⟩⟩ : RecvChannel Nat)
    (⟨⟨1⟩, ⟨3⟩⟩ : BidirChannel Nat Nat)
  have good := growth_checks_junction_id
    (unary.SendPartialPattern.new ⟨0⟩ ⟨⟨0⟩, ⟨0⟩⟩ ⟨true⟩ : unary.SendPartialPattern Nat)
    (⟨⟨0⟩, ⟨1⟩⟩ : SendChannel Nat) (⟨⟨0⟩, ⟨2⟩⟩ : RecvChannel Nat)
    (⟨⟨0⟩, ⟨3⟩⟩ : BidirChannel Nat Nat)
  exact ⟨bad.1 (by decide), good.2.1 (by decide), bad.2.2.1 (by decide),
    good.2.2.2.1 (by decide), bad.2.2.2.2.1 (by decide), good.2.2.2.2.2 (by decide)⟩

/-- C2: `then_do` consumes the builder, constructs exactly one immutable
`JoinPattern` from the accumulated channel id and the supplied reaction,
and submits exactly one `AddJoinPatternRequest` on the Junction's event
stream; it faults fatally if and only if the event stream is unreachable.
Shown for the unary send, receive and bidirectional builders. -/
theorem then_do_submits_one_registration {T R : Type}
    (ps : unary.SendPartialPattern T) (pr : unary.RecvPartialPattern R)
    (pb : unary.BidirPartialPattern T R)
    (f : T → Unit) (g : Unit → R) (k : T → R) :
    (ps.sender.reachable = true →
      (ps.then_do f).sent = [Packet.AddJoinPatternRequest (ps.builtJoinPattern f)] ∧
      (ps.then_do f).result = Except.ok ()) ∧
    (ps.sender.reachable = false →
      (ps.then_do f).sent = [] ∧
      (ps.then_do f).result = Except.error Fault.junctionUnreachable) ∧
    (pr.sender.reachable = true →
      (pr.then_do g).sent = [Packet.AddJoinPatternRequest (pr.builtJoinPattern g)] ∧
      (pr.then_do g).result = Except.ok ()) ∧
    (pr.sender.reachable = false →
      (pr.then_do g).sent = [] ∧
      (pr.then_do g).result = Except.error Fault.junctionUnreachable) ∧
    (pb.sender.reachable = true →
      (pb.then_do k).sent = [Packet.AddJoinPatternRequest (pb.builtJoinPattern k)] ∧
      (pb.then_do k).result = Except.ok ()) ∧
    (pb.sender.reachable = false →
      (pb.then_do k).sent = [] ∧
      (pb.then_do k).result = Except.error Fault.junctionUnreachable) := by
  refine ⟨fun h => ?_, fun h => ?_, fun h => ?_, fun h => ?_, fun h => ?_, fun h => ?_⟩ <;>
    simp [unary.SendPartialPattern.then_do, unary.RecvPartialPattern.then_do,
      unary.BidirPartialPattern.then_do, h]

/-- Witness for C2: a reachable and an unreachable Junction, payload and
result type `Nat`, identity-shaped reactions. -/
theorem then_do_submits_one_registration_witness :
    (((unary.SendPartialPattern.new ⟨0⟩ ⟨⟨0⟩, ⟨0⟩⟩ ⟨true⟩ :
        unary.SendPartialPattern Nat).then_do (fun _ => ())).sent
      = [Packet.AddJoinPatternRequest
          ((unary.SendPartialPattern.new ⟨0⟩ ⟨⟨0⟩, ⟨0⟩⟩ ⟨true⟩ :
            unary.SendPartialPattern Nat).builtJoinPattern (fun _ => ()))]) ∧
    (((unary.SendPartialPattern.new ⟨0⟩ ⟨⟨0⟩, ⟨0⟩⟩ ⟨true⟩ :
        unary.SendPartialPattern Nat).then_do (fun _ => ())).result = Except.ok ()) ∧
    (((unary.RecvPartialPattern.new ⟨⟨0⟩, ⟨1⟩⟩ ⟨false⟩ :
        unary.RecvPartialPattern Nat).then_do (fun _ => 7)).sent = []) ∧
    (((unary.RecvPartialPattern.new ⟨⟨0⟩, ⟨1⟩⟩ ⟨false⟩ :
        unary.RecvPartialPattern Nat).then_do (fun _ => 7)).result
      = Except.error Fault.junctionUnreachable) ∧
    (((unary.BidirPartialPattern.new ⟨⟨0⟩, ⟨2⟩⟩ ⟨true⟩ :
        unary.BidirPartialPattern Nat Nat).then_do (fun x => x)).sent
      = [Packet.AddJoinPatternRequest
          ((unary.BidirPartialPattern.new ⟨⟨0⟩, ⟨2⟩⟩ ⟨true⟩ :
            unary.BidirPartialPattern Nat Nat).builtJoinPattern (fun x => x))]) := by
  have h1 := then_do_submits_one_registration
    (unary.SendPartialPattern.new ⟨0⟩ ⟨⟨0⟩, ⟨0⟩⟩ ⟨true⟩ : unary.SendPartialPattern Nat)
    (unary.RecvPartialPattern.new ⟨⟨0⟩, ⟨1⟩⟩ ⟨false⟩ : unary.RecvPartialPattern Nat)
    (unary.BidirPartialPattern.new ⟨⟨0⟩, ⟨2⟩⟩ ⟨true⟩ : unary.BidirPartialPattern Nat Nat)
    (fun _ => ()) (fun _ => 7) (fun x => x)
  exact ⟨(h1.1 rfl).1, (h1.1 rfl).2, (h1.2.2.2.1 rfl).1, (h1.2.2.2.1 rfl).2,
    (h1.2.2.2.2.1 rfl).1⟩

/-- C3: a growth operation given a channel with a mismatching `JunctionId`
rejects the construction before any registration reaches any engine: the
call panics and delivers no packet of any kind on the Junction's event
stream (indeed no growth operation ever delivers a packet). -/
theorem mismatch_rejected_before_registration {T U R : Type}
    (p : unary.SendPartialPattern T)
    (sc : SendChannel U) (rc : RecvChannel R) (bc : BidirChannel U R) :
    ((p.and sc).sent = [] ∧ (p.and_recv rc).sent = [] ∧ (p.and_bidir bc).sent = []) ∧
    (sc.junction_id ≠ p.junction_id →
      (p.and sc).result = Except.error Fault.junctionMismatch) ∧
    (rc.junction_id ≠ p.junction_id →
      (p.and_recv rc).result = Except.error Fault.junctionMismatch) ∧
    (bc.junction_id ≠ p.junction_id →
      (p.and_bidir bc).result = Except.error Fault.junctionMismatch) := by
  refine ⟨⟨?_, ?_, ?_⟩, fun h => ?_, fun h => ?_, fun h => ?_⟩
  · unfold unary.SendPartialPattern.and
    split <;> rfl
  · unfold unary.SendPartialPattern.and_recv
    split <;> rfl
  · unfold unary.SendPartialPattern.and_bidir
    split <;> rfl
  · simp [unary.SendPartialPattern.and, h]
  · simp [unary.SendPartialPattern.and_recv, h]
  · simp [unary.SendPartialPattern.and_bidir, h]

/-- Witness for C3 at junction 0 versus junction 1. -/
theorem mismatch_rejected_before_registration_witness :
    (((unary.SendPartialPattern.new ⟨0⟩ ⟨⟨0⟩, ⟨0⟩⟩ ⟨true⟩ :
        unary.SendPartialPattern Nat).and (⟨⟨1⟩, ⟨1⟩⟩ : SendChannel Nat)).sent = []) ∧
    (((unary.SendPartialPattern.new ⟨0⟩ ⟨⟨0⟩, ⟨0⟩⟩ ⟨true⟩ :
        unary.SendPartialPattern Nat).and (⟨⟨1⟩, ⟨1⟩⟩ : SendChannel Nat)).result
      = Except.error Fault.junctionMismatch) ∧
    (((unary.SendPartialPattern.new ⟨0⟩ ⟨⟨0⟩, ⟨0⟩⟩ ⟨true⟩ :
        unary.SendPartialPattern Nat).and_recv (⟨⟨1⟩, ⟨2⟩⟩ : RecvChannel Nat)).sent = []) ∧
    (((unary.SendPartialPattern.new ⟨0⟩ ⟨⟨0⟩, ⟨0⟩⟩ ⟨true⟩ :
        unary.SendPartialPattern Nat).and_recv (⟨⟨1⟩, ⟨2⟩⟩ : RecvChannel Nat)).result
      = Except.error Fault.junctionMismatch) ∧
    (((unary.SendPartialPattern.new ⟨0⟩ ⟨⟨0⟩, ⟨0⟩⟩ ⟨true⟩ :
        unary.SendPartialPattern Nat).and_bidir (⟨⟨1⟩, ⟨3⟩⟩ : BidirChannel Nat Nat)).sent = []) ∧
    (((unary.SendPartialPattern.new ⟨0⟩ ⟨⟨0⟩, ⟨0⟩⟩ ⟨true⟩ :
        unary.SendPartialPattern Nat).and_bidir (⟨⟨1⟩, ⟨3⟩⟩ : BidirChannel Nat Nat)).result
      = Except.error Fault.junctionMismatch) := by
  have h := mismatch_rejected_before_registration
    (unary.SendPartialPattern.new ⟨0⟩ ⟨⟨0⟩, ⟨0⟩⟩ ⟨true⟩ : unary.SendPartialPattern Nat)
    (⟨⟨1⟩, ⟨1⟩⟩ : SendChannel Nat) (⟨⟨1⟩, ⟨2⟩⟩ : RecvChannel Nat)
    (⟨⟨1⟩, ⟨3⟩⟩ : BidirChannel Nat Nat)
  exact ⟨h.1.1, h.2.1 (by decide), h.1.2.1, h.2.2.1 (by decide), h.1.2.2,
    h.2.2.2 (by decide)⟩

/-- C4: on a matching `JunctionId`, each growth operation returns the binary
partial pattern of arity 2 keeping the previously bound send channel in
first position and appending the new channel in stripped form in second
position; the accumulated type signature is extended by the new channel's
payload and result types (visible in the result types
`binary.SendPartialPattern T U`, `binary.RecvPartialPattern T R`,
`binary.BidirPartialPattern T U R`). -/
theorem growth_appends_stripped_channel {T U R : Type}
    (p : unary.SendPartialPattern T)
    (sc : SendChannel U) (rc : RecvChannel R) (bc : BidirChannel U R) :
    (sc.junction_id = p.junction_id →
      (p.and sc).result = Except.ok
        { junction_id := p.junction_id, first_send_channel := p.send_channel,
          second_send_channel := sc.strip, sender := p.sender }) ∧
    (rc.junction_id = p.junction_id →
      (p.and_recv rc).result = Except.ok
        { send_channel := p.send_channel, recv_channel := rc.strip,
          sender := p.sender }) ∧
    (bc.junction_id = p.junction_id →
      (p.and_bidir bc).result = Except.ok
        { send_channel := p.send_channel, bidir_channel := bc.strip,
          sender := p.sender }) := by
  refine ⟨fun h => ?_, fun h => ?_, fun h => ?_⟩ <;>
    simp [unary.SendPartialPattern.and, unary.SendPartialPattern.and_recv,
      unary.SendPartialPattern.and_bidir, h, binary.SendPartialPattern.new,
      binary.RecvPartialPattern.new, binary.BidirPartialPattern.new]

/-- Witness for C4 on junction 0 with distinct channel ids. -/
theorem growth_appends_stripped_channel_witness :
    (((unary.SendPartialPattern.new ⟨0⟩ ⟨⟨0⟩, ⟨0⟩⟩ ⟨true⟩ :
        unary.SendPartialPattern Nat).and (⟨⟨0⟩, ⟨1⟩⟩ : SendChannel Nat)).result
      = Except.ok
        { junction_id := ⟨0⟩, first_send_channel := ⟨⟨0⟩, ⟨0⟩⟩,
          second_send_channel := ⟨⟨0⟩, ⟨1⟩⟩, sender := ⟨true⟩ }) ∧
    (((unary.SendPartialPattern.new ⟨0⟩ ⟨⟨0⟩, ⟨0⟩⟩ ⟨true⟩ :
        unary.SendPartialPattern Nat).and_recv (⟨⟨0⟩, ⟨2⟩⟩ : RecvChannel Nat)).result
      = Except.ok
        { send_channel := ⟨⟨0⟩, ⟨0⟩⟩, recv_channel := ⟨⟨0⟩, ⟨2⟩⟩,
          sender := ⟨true⟩ }) ∧
    (((unary.SendPartialPattern.new ⟨0⟩ ⟨⟨0⟩, ⟨0⟩⟩ ⟨true⟩ :
        unary.SendPartialPattern Nat).and_bidir (⟨⟨0⟩, ⟨3⟩⟩ : BidirChannel Nat Nat)).result
      = Except.ok
        { send_channel := ⟨⟨0⟩, ⟨0⟩⟩, bidir_channel := ⟨⟨0⟩, ⟨3⟩⟩,
          sender := ⟨true⟩ }) := by
  have h := growth_appends_stripped_channel
    (unary.SendPartialPattern.new ⟨0⟩ ⟨⟨0⟩, ⟨0⟩⟩ ⟨true⟩ : unary.SendPartialPattern Nat)
    (⟨⟨0⟩, ⟨1⟩⟩ : SendChannel Nat) (⟨⟨0⟩, ⟨2⟩⟩ : RecvChannel Nat)
    (⟨⟨0⟩, ⟨3⟩⟩ : BidirChannel Nat Nat)
  exact ⟨h.1 rfl, h.2.1 rfl, h.2.2 rfl⟩

/-- C5: every unary `JoinPattern` produced by `then_do` stores exactly one
member channel id — `channels` returns the one-element list containing
`channel_id`, the id accumulated by the builder — and one reaction whose
shape matches its capability: the send pattern stores the erased form of a
reaction `T → Unit`, the receive pattern of a reaction `Unit → R`, and the
bidirectional pattern of a reaction `T → R`. -/
theorem then_do_pattern_stores_one_channel_and_reaction :
    (∀ jp : SendJoinPattern, jp.channels = [jp.channel_id]) ∧
    (∀ jp : RecvJoinPattern, jp.channels = [jp.channel_id]) ∧
    (∀ jp : BidirJoinPattern, jp.channels = [jp.channel_id]) ∧
    (∀ {T : Type} (p : unary.SendPartialPattern T) (f : T → Unit),
      p.builtJoinPattern f
        = JoinPattern.UnarySend
            { channel_id := p.send_channel.id, f := FnBox.sendClosure f }) ∧
    (∀ {R : Type} (p : unary.RecvPartialPattern R) (f : Unit → R),
      p.builtJoinPattern f
        = JoinPattern.UnaryRecv
            { channel_id := p.recv_channel.id, f := FnBox.recvClosure f }) ∧
    (∀ {T R : Type} (p : unary.BidirPartialPattern T R) (f : T → R),
      p.builtJoinPattern f
        = JoinPattern.UnaryBidir
            { channel_id := p.bidir_channel.id, f := FnBox.bidirClosure f }) :=
  ⟨fun _ => rfl, fun _ => rfl, fun _ => rfl,
    fun _ _ => rfl, fun _ _ => rfl, fun _ _ => rfl⟩

/-- C7: a unary join pattern is immutable after construction: however many
times it fires, the pattern handed to the next `fire` call is the one built
at construction, its `channels`, `channel_id` and stored reaction are their
construction-time values, and every spawned thread runs that same stored
reaction. -/
theorem join_pattern_immutable_under_fire (cid : ChannelId) (f : FnBox)
    (msgs : List Message) :
    ((SendJoinPattern.new cid f).fireAll msgs).1 = SendJoinPattern.new cid f ∧
    ((SendJoinPattern.new cid f).fireAll msgs).1.channels = [cid] ∧
    ((SendJoinPattern.new cid f).fireAll msgs).1.channel_id = cid ∧
    ((SendJoinPattern.new cid f).fireAll msgs).1.f = f ∧
    ((SendJoinPattern.new cid f).fireAll msgs).2
      = msgs.map fun m => { f := f, arg := m } := by
  have h := SendJoinPattern.fireAll_eq (SendJoinPattern.new cid f) msgs
  refine ⟨by rw [h], by rw [h]; rfl, by rw [h]; rfl, by rw [h]; rfl, by rw [h]; rfl⟩

/-- C8: when `and_recv` or `and_bidir` succeeds, the resulting binary
partial pattern is constructed from only the stripped channels and the
packet sender — the binary receive and bidirectional patterns consist of
exactly those parts, with no junction id of their own — whereas `and`
passes the builder's `JunctionId` on to the binary send pattern. -/
theorem binary_constructor_junction_id_flow {T U R : Type}
    (p : unary.SendPartialPattern T)
    (sc : SendChannel U) (rc : RecvChannel R) (bc : BidirChannel U R) :
    (rc.junction_id = p.junction_id →
      (p.and_recv rc).result = Except.ok
        (binary.RecvPartialPattern.new p.send_channel rc.strip p.sender)) ∧
    (∀ b : binary.RecvPartialPattern T R,
      b = binary.RecvPartialPattern.new b.send_channel b.recv_channel b.sender) ∧
    (bc.junction_id = p.junction_id →
      (p.and_bidir bc).result = Except.ok
        (binary.BidirPartialPattern.new p.send_channel bc.strip p.sender)) ∧
    (∀ b : binary.BidirPartialPattern T U R,
      b = binary.BidirPartialPattern.new b.send_channel b.bidir_channel b.sender) ∧
    (sc.junction_id = p.junction_id →
      (p.and sc).result = Except.ok
        (binary.SendPartialPattern.new p.junction_id p.send_channel sc.strip p.sender) ∧
      ∀ b : binary.SendPartialPattern T U,
        (p.and sc).result = Except.ok b → b.junction_id = p.junction_id) := by
  refine ⟨fun h => ?_, fun b => rfl, fun h => ?_, fun b => rfl, fun h => ⟨?_, ?_⟩⟩
  · simp [unary.SendPartialPattern.and_recv, h]
  · simp [unary.SendPartialPattern.and_bidir, h]
  · simp [unary.SendPartialPattern.and, h]
  · intro b hb
    simp only [unary.SendPartialPattern.and, h, if_true] at hb
    cases hb with
    | refl => rfl

/-- Witness for C8 on junction 0. -/
theorem binary_constructor_junction_id_flow_witness :
    (((unary.SendPartialPattern.new ⟨0⟩ ⟨⟨0⟩, ⟨0⟩⟩ ⟨true⟩ :
        unary.SendPartialPattern Nat).and_recv (⟨⟨0⟩, ⟨2⟩⟩ : RecvChannel Nat)).result
      = Except.ok (binary.RecvPartialPattern.new ⟨⟨0⟩, ⟨0⟩⟩ ⟨⟨0⟩, ⟨2⟩⟩ ⟨true⟩)) ∧
    (((unary.SendPartialPattern.new ⟨0⟩ ⟨⟨0⟩, ⟨0⟩⟩ ⟨true⟩ :
        unary.SendPartialPattern Nat).and_bidir (⟨⟨0⟩, ⟨3⟩⟩ : BidirChannel Nat Nat)).result
      = Except.ok (binary.BidirPartialPattern.new ⟨⟨0⟩, ⟨0⟩⟩ ⟨⟨0⟩, ⟨3⟩⟩ ⟨true⟩)) ∧
    (((unary.SendPartialPattern.new ⟨0⟩ ⟨⟨0⟩, ⟨0⟩⟩ ⟨true⟩ :
        unary.SendPartialPattern Nat).and (⟨⟨0⟩, ⟨1⟩⟩ : SendChannel Nat)).result
      = Except.ok (binary.SendPartialPattern.new ⟨0⟩ ⟨⟨0⟩, ⟨0⟩⟩ ⟨⟨0⟩, ⟨1⟩⟩ ⟨true⟩)) := by
  have h := binary_constructor_junction_id_flow
    (unary.SendPartialPattern.new ⟨0⟩ ⟨⟨0⟩, ⟨0⟩⟩ ⟨true⟩ : unary.SendPartialPattern Nat)
    (⟨⟨0⟩, ⟨1⟩⟩ : SendChannel Nat) (⟨⟨0⟩, ⟨2⟩⟩ : RecvChannel Nat)
    (⟨⟨0⟩, ⟨3⟩⟩ : BidirChannel Nat Nat)
  exact ⟨h.1 rfl, h.2.2.1 rfl, (h.2.2.2.2 rfl).1⟩

/-- C9: the registration submitted by `then_do` does not depend on the
builder's `JunctionId`: two send builders identical except for their
junction id submit identical packets; a receive or bidirectional builder's
submission depends only on its channel's id (and the sender), not on any
junction id; and the unary receive and bidirectional builders consist of
exactly a stripped channel and a sender, with no junction id field of
their own. -/
theorem then_do_independent_of_junction_id :
    (∀ {T : Type} (j1 j2 : JunctionId) (ch : StrippedSendChannel T)
        (s : Sender) (f : T → Unit),
      (unary.SendPartialPattern.new j1 ch s).then_do f
        = (unary.SendPartialPattern.new j2 ch s).then_do f) ∧
    (∀ {R : Type} (rc1 rc2 : StrippedRecvChannel R) (s : Sender) (g : Unit → R),
      rc1.id = rc2.id →
        (unary.RecvPartialPattern.new rc1 s).then_do g
          = (unary.RecvPartialPattern.new rc2 s).then_do g) ∧
    (∀ {T R : Type} (bc1 bc2 : StrippedBidirChannel T R) (s : Sender) (k : T → R),
      bc1.id = bc2.id →
        (unary.BidirPartialPattern.new bc1 s).then_do k
          = (unary.BidirPartialPattern.new bc2 s).then_do k) ∧
    (∀ {R : Type} (p q : unary.RecvPartialPattern R),
      p.recv_channel = q.recv_channel → p.sender = q.sender → p = q) ∧
    (∀ {T R : Type} (p q : unary.BidirPartialPattern T R),
      p.bidir_channel = q.bidir_channel → p.sender = q.sender → p = q) := by
  refine ⟨fun j1 j2 ch s f => rfl, fun rc1 rc2 s g hid => ?_,
    fun bc1 bc2 s k hid => ?_, fun p q h1 h2 => ?_, fun p q h1 h2 => ?_⟩
  · simp [unary.RecvPartialPattern.then_do, unary.RecvPartialPattern.builtJoinPattern,
      unary.RecvPartialPattern.new, hid]
  · simp [unary.BidirPartialPattern.then_do, unary.BidirPartialPattern.builtJoinPattern,
      unary.BidirPartialPattern.new, hid]
  · cases p; cases q; cases h1; cases h2; rfl
  · cases p; cases q; cases h1; cases h2; rfl

/-- Witness for C9: junction ids 0 and 1, channel id 2, payload type
`Nat`. -/
theorem then_do_independent_of_junction_id_witness :
    ((unary.SendPartialPattern.new ⟨0⟩ ⟨⟨0⟩, ⟨2⟩⟩ ⟨true⟩ :
        unary.SendPartialPattern Nat).then_do (fun _ => ())
      = (unary.SendPartialPattern.new ⟨1⟩ ⟨⟨0⟩, ⟨2⟩⟩ ⟨true⟩ :
        unary.SendPartialPattern Nat).then_do (fun _ => ())) ∧
    ((unary.RecvPartialPattern.new (⟨⟨0⟩, ⟨2⟩⟩ : StrippedRecvChannel Nat)
        ⟨true⟩).then_do (fun _ => 7)
      = (unary.RecvPartialPattern.new (⟨⟨1⟩, ⟨2⟩⟩ : StrippedRecvChannel Nat)
        ⟨true⟩).then_do (fun _ => 7)) ∧
    ((unary.BidirPartialPattern.new (⟨⟨0⟩, ⟨2⟩⟩ : StrippedBidirChannel Nat Nat)
        ⟨true⟩).then_do (fun x => x)
      = (unary.BidirPartialPattern.new (⟨⟨1⟩, ⟨2⟩⟩ : StrippedBidirChannel Nat Nat)
        ⟨true⟩).then_do (fun x => x)) := by
  have h := then_do_independent_of_junction_id
  exact ⟨h.1 ⟨0⟩ ⟨1⟩ ⟨⟨0⟩, ⟨2⟩⟩ ⟨true⟩ (fun _ => ()),
    h.2.1 ⟨⟨0⟩, ⟨2⟩⟩ ⟨⟨1⟩, ⟨2⟩⟩ ⟨true⟩ (fun _ => 7) rfl,
    h.2.2.1 ⟨⟨0⟩, ⟨2⟩⟩ ⟨⟨1⟩, ⟨2⟩⟩ ⟨true⟩ (fun x => x) rfl⟩

/-- C10: `SendJoinPattern`, `RecvJoinPattern` and `BidirJoinPattern` are
extensionally equivalent: built from the same channel id and erased
reaction, their `channels`, `channel_id` and `fire` agree on every input;
the three types differ only as capability tags. -/
theorem join_pattern_types_extensionally_equal (cid : ChannelId) (f : FnBox)
    (m : Message) :
    (SendJoinPattern.new cid f).channels = (RecvJoinPattern.new cid f).channels ∧
    (RecvJoinPattern.new cid f).channels = (BidirJoinPattern.new cid f).channels ∧
    (SendJoinPattern.new cid f).channel_id = (RecvJoinPattern.new cid f).channel_id ∧
    (RecvJoinPattern.new cid f).channel_id = (BidirJoinPattern.new cid f).channel_id ∧
    (SendJoinPattern.new cid f).fire m = (RecvJoinPattern.new cid f).fire m ∧
    (RecvJoinPattern.new cid f).fire m = (BidirJoinPattern.new cid f).fire m :=
  ⟨rfl, rfl, rfl, rfl, rfl, rfl⟩

end RustyJunctions
